import Mathlib

/-!
Verification of the command-processing and package-configuration core of the
amazon-ssm-agent repository. The processor definitions below are a shallow
embedding of `processor_core.go` (functions `processMessage`,
`ExecutePendingDocument`, `processSendCommandMessage`, `runCmdsUsingCmdState`,
`processCancelCommandMessage`, `loadPluginConfigurations`, `isUpdatePlugin`).
Effectful calls (MDS service, document store, worker pools, plugin runner) are
modelled as an explicit event trace plus environment records supplying the
results of collaborator calls; the on-disk document store is modelled as a map
from (documentID, instanceID) to the folder holding the state file.
-/

namespace Ssm

/-- `contracts.ResultStatus` is a Go string type; statuses are its named
string constants. -/
abbrev ResultStatus := String

def ResultStatusInProgress : ResultStatus := "InProgress"

def ResultStatusSuccess : ResultStatus := "Success"

def ResultStatusSuccessAndReboot : ResultStatus := "SuccessAndReboot"

def ResultStatusFailed : ResultStatus := "Failed"

def ResultStatusCancelled : ResultStatus := "Cancelled"

def ResultStatusTimedOut : ResultStatus := "TimedOut"

/-- The four folders of the on-disk document store (appconfig's
DefaultLocationOf... constants). -/
inductive Folder
  | Pending
  | Current
  | Completed
  | Corrupt
deriving DecidableEq, Repr

def DefaultLocationOfPending : Folder := Folder.Pending

def DefaultLocationOfCurrent : Folder := Folder.Current

def DefaultLocationOfCompleted : Folder := Folder.Completed

/-- `model.PluginState`: one plugin of a document. `Configuration` is an
opaque payload here (the processor copies it, never inspects it). -/
structure PluginState where
  Name : String
  Configuration : String
  HasExecuted : Bool
deriving DecidableEq, Repr

/-- `model.DocumentInfo`: the document-level information of a DocumentState. -/
structure DocumentInfo where
  DocumentID : String
  InstanceID : String
  MessageID : String
  CommandID : String
  DocumentName : String
  DocumentStatus : ResultStatus
  RuntimeStatus : String
  AdditionalInfo : String
  DocumentTraceOutput : String
deriving DecidableEq, Repr

/-- `model.CancelCommandInfo` of a cancel document. -/
structure CancelInfo where
  CancelMessageID : String
  CancelCommandID : String
  DebugInfo : String
deriving DecidableEq, Repr

/-- `model.DocumentType` is a Go string type. -/
abbrev DocumentType := String

def SendCommand : DocumentType := "SendCommand"

def SendCommandOffline : DocumentType := "SendCommandOffline"

def CancelCommand : DocumentType := "CancelCommand"

def CancelCommandOffline : DocumentType := "CancelCommandOffline"

/-- `model.DocumentState`: the persisted unit of work. The Go field
`InstancePluginsInformation` is a `map[string]model.PluginState`; it is
modelled as an association list. -/
structure DocumentState where
  DocumentInformation : DocumentInfo
  DocumentType : DocumentType
  InstancePluginsInformation : List (String × PluginState)
  CancelInformation : CancelInfo
deriving DecidableEq, Repr

/-- The document-level part of `messageContracts.SendReplyPayload` that
`processSendCommandMessage` copies into the interim state (out of
`buildReply`'s result). -/
structure SendReplyPayload where
  AdditionalInfo : String
  DocumentStatus : ResultStatus
  DocumentTraceOutput : String
  RuntimeStatus : String
deriving DecidableEq, Repr

/-- `service.InternalHandlerException` and friends. -/
inductive FailureType
  | InternalHandlerException
  | NoHandlerExists
deriving DecidableEq, Repr

/-- The plugin outputs map (`map[string]*contracts.PluginResult`), opaque to
the processor except through `buildReply`. -/
abbrev PluginOutputs := List (String × ResultStatus)

/-- One observable effect of the processor on its collaborators, in program
order: document-store writes and moves, MDS calls, pool submissions, and the
hand-off of plugins to the plugin runner. -/
inductive Event
  | runPluginsEv (messageID : String) (plugins : List (String × PluginState))
  | persistData (documentID instanceID : String) (folder : Folder)
  | persistDocumentInfo (documentID instanceID : String) (folder : Folder)
  | sendResponse (messageID replyID : String)
  | docLevelResponse (messageID : String) (resultStatus : ResultStatus) (info : String)
  | moveDocumentState (documentID instanceID : String) (srcFolder dstFolder : Folder)
  | acknowledgeMessage (messageID : String)
  | failMessage (messageID : String) (failureType : FailureType)
  | deleteMessage (messageID : String)
  | submitToSendCommandPool (jobID : String)
  | submitToCancelCommandPool (jobID : String)
deriving DecidableEq, Repr

/-- Environment of `processSendCommandMessage` / `runCmdsUsingCmdState`: the
plugin runner, the reply builder and the document store read-back, each an
arbitrary function (the processor treats them as black boxes). -/
structure SendEnv where
  runPlugins : String → List (String × PluginState) → PluginOutputs
  buildReply : String → PluginOutputs → SendReplyPayload
  getDocumentInterimState : String → String → Folder → DocumentState

/-- Constant `appconfig.PluginNameAwsAgentUpdate`. Modelled from the spec:
the constant's defining file is not among the source files; the spec names
the update-self plugins `aws:updateSsmAgent` and `aws:updateEc2Config`. -/
def PluginNameAwsAgentUpdate : String := "aws:updateSsmAgent"

/-- Constant `appconfig.PluginEC2ConfigUpdate`. Modelled from the spec (see
`PluginNameAwsAgentUpdate`). -/
def PluginEC2ConfigUpdate : String := "aws:updateEc2Config"

/-- `isUpdatePlugin` (processor_core.go:407-414): whether any plugin of the
document is one of the two update-self plugins. -/
def isUpdatePlugin (pluginConfig : DocumentState) : Bool :=
  pluginConfig.InstancePluginsInformation.any fun p =>
    p.2.Name == PluginEC2ConfigUpdate || p.2.Name == PluginNameAwsAgentUpdate

/-- `loadPluginConfigurations` (processor_core.go:217-231): the plugin
configurations that have not been executed yet; a plugin with
`HasExecuted = true` is skipped. -/
def loadPluginConfigurations (plugins : List (String × PluginState)) :
    List (String × String) :=
  plugins.filterMap fun p =>
    if p.2.HasExecuted then none else some (p.1, p.2.Configuration)

/-- The interim command state after `processSendCommandMessage` (and likewise
`runCmdsUsingCmdState`) reads the document back from the Current folder and
overlays the document-level fields of `buildReply("", outputs)`
(processor_core.go:246-262 and 63-77). -/
def finalCmdState (env : SendEnv) (docState : DocumentState) : DocumentState :=
  let outputs := env.runPlugins docState.DocumentInformation.MessageID
    docState.InstancePluginsInformation
  let payloadDoc := env.buildReply "" outputs
  let newCmdState := env.getDocumentInterimState
    docState.DocumentInformation.DocumentID
    docState.DocumentInformation.InstanceID
    DefaultLocationOfCurrent
  { newCmdState with
      DocumentInformation := { newCmdState.DocumentInformation with
        AdditionalInfo := payloadDoc.AdditionalInfo
        DocumentStatus := payloadDoc.DocumentStatus
        DocumentTraceOutput := payloadDoc.DocumentTraceOutput
        RuntimeStatus := payloadDoc.RuntimeStatus } }

/-- `processSendCommandMessage` (processor_core.go:234-298) as its trace of
effects: run the plugins on the document's plugin list, persist the updated
document info to Current, send the final reply; then, unless the final status
is SuccessAndReboot, move Current to Completed and, unless the document holds
an update-self plugin, delete the MDS message. -/
def processSendCommandMessage (env : SendEnv) (docState : DocumentState) :
    List Event :=
  [Event.runPluginsEv docState.DocumentInformation.MessageID
     docState.InstancePluginsInformation,
   Event.persistDocumentInfo (finalCmdState env docState).DocumentInformation.DocumentID
     (finalCmdState env docState).DocumentInformation.InstanceID
     DefaultLocationOfCurrent,
   Event.sendResponse (finalCmdState env docState).DocumentInformation.MessageID ""]
  ++ (if (finalCmdState env docState).DocumentInformation.DocumentStatus =
        ResultStatusSuccessAndReboot then
        []
      else
        Event.moveDocumentState (finalCmdState env docState).DocumentInformation.DocumentID
          (finalCmdState env docState).DocumentInformation.InstanceID
          DefaultLocationOfCurrent DefaultLocationOfCompleted
        :: (if isUpdatePlugin (finalCmdState env docState) then []
            else [Event.deleteMessage
              (finalCmdState env docState).DocumentInformation.MessageID]))

/-- `runCmdsUsingCmdState` (processor_core.go:51-118): identical effect
sequence to `processSendCommandMessage` (the Go bodies differ only in
logging). -/
def runCmdsUsingCmdState (env : SendEnv) (docState : DocumentState) :
    List Event :=
  [Event.runPluginsEv docState.DocumentInformation.MessageID
     docState.InstancePluginsInformation,
   Event.persistDocumentInfo (finalCmdState env docState).DocumentInformation.DocumentID
     (finalCmdState env docState).DocumentInformation.InstanceID
     DefaultLocationOfCurrent,
   Event.sendResponse (finalCmdState env docState).DocumentInformation.MessageID ""]
  ++ (if (finalCmdState env docState).DocumentInformation.DocumentStatus =
        ResultStatusSuccessAndReboot then
        []
      else
        Event.moveDocumentState (finalCmdState env docState).DocumentInformation.DocumentID
          (finalCmdState env docState).DocumentInformation.InstanceID
          DefaultLocationOfCurrent DefaultLocationOfCompleted
        :: (if isUpdatePlugin (finalCmdState env docState) then []
            else [Event.deleteMessage
              (finalCmdState env docState).DocumentInformation.MessageID]))

/-- Environment of `processCancelCommandMessage`: the result of
`sendCommandPool.Cancel`. -/
structure CancelEnv where
  poolCancel : String → Bool

/-- `processCancelCommandMessage` (processor_core.go:351-388): cancel the job
in the send pool; record Failed / "couldn't be cancelled" when not found,
Success / "cancelled" when found; persist the state in Current, move it to
Completed, delete the MDS message. Returns the updated state and the trace. -/
def processCancelCommandMessage (env : CancelEnv) (docState : DocumentState) :
    DocumentState × List Event :=
  let found := env.poolCancel docState.CancelInformation.CancelMessageID
  let newState :=
    if !found then
      { docState with
          CancelInformation := { docState.CancelInformation with
            DebugInfo := "Command " ++ docState.CancelInformation.CancelCommandID
              ++ " couldn't be cancelled" }
          DocumentInformation := { docState.DocumentInformation with
            DocumentStatus := ResultStatusFailed } }
    else
      { docState with
          CancelInformation := { docState.CancelInformation with
            DebugInfo := "Command " ++ docState.CancelInformation.CancelCommandID
              ++ " cancelled" }
          DocumentInformation := { docState.DocumentInformation with
            DocumentStatus := ResultStatusSuccess } }
  (newState,
   [Event.persistData newState.DocumentInformation.DocumentID
      newState.DocumentInformation.InstanceID DefaultLocationOfCurrent,
    Event.moveDocumentState newState.DocumentInformation.DocumentID
      newState.DocumentInformation.InstanceID
      DefaultLocationOfCurrent DefaultLocationOfCompleted,
    Event.deleteMessage newState.DocumentInformation.MessageID])

/-- `ssmmds.Message` (the fields the processor reads). -/
structure Message where
  MessageId : String
  Topic : String
  Payload : String
  CreatedDate : String
  Destination : String
deriving DecidableEq, Repr

/-- Topic constant `SendCommandTopicPrefix`. Modelled from the spec: the
constant is defined in processor.go, which is not among the source files; the
spec fixes the value `aws.ssm.sendCommand.`. -/
def SendCommandTopic : String := "aws.ssm.sendCommand."

/-- Topic constant `CancelCommandTopicPrefix`. Modelled from the spec (value
`aws.ssm.cancelCommand.`). -/
def CancelCommandTopic : String := "aws.ssm.cancelCommand."

/-- `validate(msg)`. Modelled from the spec: the function lives in
processor.go, not among the source files; the spec says it requires non-empty
MessageID, Topic, Payload and CreatedDate. -/
def validate (msg : Message) : Bool :=
  msg.MessageId != "" && msg.Topic != "" && msg.Payload != "" && msg.CreatedDate != ""

/-- `strings.HasPrefix(topic, t)` as a character-list prefix check. -/
def topicBegins (topic t : String) : Bool :=
  List.isPrefixOf t.toList topic.toList

/-- Environment of `processMessage`: the two parsers (their bodies call
collaborators outside the processor) and whether `AcknowledgeMessage` fails. -/
structure ProcEnv where
  parseSendCommandMessage : Message → Except String DocumentState
  parseCancelCommandMessage : Message → Except String DocumentState
  acknowledgeMessageFails : String → Bool

/-- `ExecutePendingDocument` (processor_core.go:175-214): move the document
from Pending to Current and submit it to the pool selected by its
DocumentType (an unexpected type is only logged). -/
def ExecutePendingDocument (docState : DocumentState) : List Event :=
  Event.moveDocumentState docState.DocumentInformation.DocumentID
    docState.DocumentInformation.InstanceID
    DefaultLocationOfPending DefaultLocationOfCurrent
  :: (if docState.DocumentType == SendCommand
        || docState.DocumentType == SendCommandOffline then
        [Event.submitToSendCommandPool docState.DocumentInformation.MessageID]
      else if docState.DocumentType == CancelCommand
        || docState.DocumentType == CancelCommandOffline then
        [Event.submitToCancelCommandPool docState.DocumentInformation.MessageID]
      else [])

/-- The tail of `processMessage` after a successful parse
(processor_core.go:157-172): persist to Pending, acknowledge; on ack error
return at once, otherwise send the InProgress document-level response and
execute the pending document. -/
def processMessageDispatch (env : ProcEnv) (msg : Message)
    (docState : DocumentState) : List Event :=
  [Event.persistData docState.DocumentInformation.DocumentID
     docState.DocumentInformation.InstanceID DefaultLocationOfPending,
   Event.acknowledgeMessage msg.MessageId]
  ++ (if env.acknowledgeMessageFails msg.MessageId then []
      else Event.docLevelResponse msg.MessageId ResultStatusInProgress ""
        :: ExecutePendingDocument docState)

/-- `processMessage` (processor_core.go:120-172): validate, route by topic
prefix; a send-command parse error yields a Failed document-level response, a
cancel-command parse error or an unknown topic yields
`FailMessage(InternalHandlerException)`; then persist / ack / dispatch. -/
def processMessage (env : ProcEnv) (msg : Message) : List Event :=
  if !(validate msg) then []
  else if topicBegins msg.Topic SendCommandTopic then
    match env.parseSendCommandMessage msg with
    | Except.error e => [Event.docLevelResponse msg.MessageId ResultStatusFailed e]
    | Except.ok docState => processMessageDispatch env msg docState
  else if topicBegins msg.Topic CancelCommandTopic then
    match env.parseCancelCommandMessage msg with
    | Except.error _ =>
      [Event.failMessage msg.MessageId FailureType.InternalHandlerException]
    | Except.ok docState => processMessageDispatch env msg docState
  else
    [Event.failMessage msg.MessageId FailureType.InternalHandlerException]

/-- The document store: which folder (if any) holds the state file of a
(documentID, instanceID) pair. -/
abbrev DocStore := String × String → Option Folder

/-- How one event changes the document store: persisting writes the file into
the folder, a move renames when the source holds the file, everything else
leaves the store alone. -/
def applyEvent (store : DocStore) (e : Event) : DocStore :=
  match e with
  | Event.persistData d i f => fun k => if k = (d, i) then some f else store k
  | Event.persistDocumentInfo d i f => fun k => if k = (d, i) then some f else store k
  | Event.moveDocumentState d i srcFolder dstFolder =>
    fun k =>
      if k = (d, i) then
        (if store (d, i) = some srcFolder then some dstFolder else store (d, i))
      else store k
  | _ => store

def applyEvents (trace : List Event) (store : DocStore) : DocStore :=
  trace.foldl applyEvent store

def isMoveEvent : Event → Bool
  | Event.moveDocumentState _ _ _ _ => true
  | _ => false

def isDeleteEvent : Event → Bool
  | Event.deleteMessage _ => true
  | _ => false

def isPersistEvent : Event → Bool
  | Event.persistData _ _ _ => true
  | Event.persistDocumentInfo _ _ _ => true
  | _ => false

def isFailMessageEvent : Event → Bool
  | Event.failMessage _ _ => true
  | _ => false

def isSubmitEvent : Event → Bool
  | Event.submitToSendCommandPool _ => true
  | Event.submitToCancelCommandPool _ => true
  | _ => false

def isInProgressResponse : Event → Bool
  | Event.docLevelResponse _ resultStatus _ => resultStatus == ResultStatusInProgress
  | _ => false

/-- The plugins a trace hands to the plugin runner (the payloads of its
`runPluginsEv` events, in order). -/
def handedToRunner (trace : List Event) : List (String × PluginState) :=
  trace.foldr
    (fun e acc =>
      match e with
      | Event.runPluginsEv _ ps => ps ++ acc
      | _ => acc)
    []

/-!
The package configuration engine (package `configurepackage`). Its
implementation file is not among the source files; only its test file is.
Per the spec the engine is therefore modelled from the spec's own rules
(sections 4.6 and 7) and each definition below says so.
-/

/-- `ConfigurePackagePluginInput` (the fields validateInput reads). -/
structure ConfigurePackagePluginInput where
  Name : String
  Version : String
  Action : String
  Source : String
deriving DecidableEq, Repr

/-- `ConfigurePackagePluginOutput`: Status is a `contracts.ResultStatus`
string, empty in Go's zero value. -/
structure ConfigurePackagePluginOutput where
  ExitCode : Int
  Status : ResultStatus
  Stdout : String
  Stderr : String
deriving DecidableEq, Repr

def emptyOutput : ConfigurePackagePluginOutput :=
  { ExitCode := 0, Status := "", Stdout := "", Stderr := "" }

/-- Modelled from the spec: `MarkAsSucceeded(reboot)` sets `ExitCode=0` and
`Status=Success` (or `SuccessAndReboot`). -/
def MarkAsSucceeded (out : ConfigurePackagePluginOutput) (reboot : Bool) :
    ConfigurePackagePluginOutput :=
  { out with
      ExitCode := 0
      Status := if reboot then ResultStatusSuccessAndReboot else ResultStatusSuccess }

/-- Modelled from the spec: `MarkAsFailed(err)` sets `ExitCode=1`,
`Status=Failed` and appends the error to `Stderr`. -/
def MarkAsFailed (out : ConfigurePackagePluginOutput) (err : String) :
    ConfigurePackagePluginOutput :=
  { out with
      ExitCode := 1
      Status := ResultStatusFailed
      Stderr := out.Stderr ++ err }

/-- Modelled from the spec: `AppendInfo` is line-appending on `Stdout`. -/
def AppendInfo (out : ConfigurePackagePluginOutput) (msg : String) :
    ConfigurePackagePluginOutput :=
  { out with Stdout := out.Stdout ++ msg ++ "\n" }

def nameHeadOk (c : Char) : Bool :=
  c.isAlpha || c == '_'

def nameCharOk (c : Char) : Bool :=
  c.isAlphanum || c == '.' || c == '_' || c == '-'

def hasDoubleDot : List Char → Bool
  | '.' :: '.' :: _ => true
  | _ :: rest => hasDoubleDot rest
  | [] => false

def lastCharIs (cs : List Char) (c : Char) : Bool :=
  match cs.getLast? with
  | some d => d == c
  | none => false

/-- Modelled from the spec: the package-name rule of validateInput — the
name matches `[A-Za-z_][A-Za-z0-9._-]*`, does not end in a dot or a dash and
does not contain two consecutive dots. -/
def validPackageName (s : String) : Bool :=
  match s.toList with
  | [] => false
  | c :: cs =>
    nameHeadOk c && cs.all nameCharOk
      && !(lastCharIs s.toList '.') && !(lastCharIs s.toList '-')
      && !(hasDoubleDot s.toList)

/-- The groups of characters between the dots of a string (a list-level
`splitOn "."`). -/
def splitOnDot : List Char → List (List Char)
  | [] => [[]]
  | c :: rest =>
    if c == '.' then [] :: splitOnDot rest
    else
      match splitOnDot rest with
      | [] => [[c]]
      | g :: gs => (c :: g) :: gs

/-- Modelled from the spec: the version rule of validateInput — a non-empty
version is three non-empty digit runs separated by dots. -/
def validPackageVersion (s : String) : Bool :=
  match splitOnDot s.toList with
  | [a, b, c] =>
    !(a.isEmpty) && a.all Char.isDigit
      && !(b.isEmpty) && b.all Char.isDigit
      && !(c.isEmpty) && c.all Char.isDigit
  | _ => false

/-- Modelled from the spec: `validateInput` (configurepackage.go, not among
the source files). `Source` must be empty; an empty `Name` yields
"empty name field", an ill-formed one "invalid name"; a non-empty `Version`
must be three dotted digit runs, else "invalid version"; an empty version is
permitted. No rule reads `Action`. Returns (valid, error). -/
def validateInput (input : ConfigurePackagePluginInput) :
    Bool × Option String :=
  if input.Source != "" then (false, some "source parameter is not supported")
  else if input.Name == "" then (false, some "empty name field")
  else if !(validPackageName input.Name) then (false, some "invalid name")
  else if input.Version != "" && !(validPackageVersion input.Version) then
    (false, some "invalid version")
  else (true, none)

/-- The process-wide package lock state: package name to the action in
progress. -/
abbrev PackageLocks := List (String × String)

/-- Modelled from the spec: `lockPackage(name, action)` fails with
`Package "<Name>" is already in the process of action "<Action>"` when any
action is in progress for the name, else records (name, action). -/
def lockPackage (locks : PackageLocks) (name action : String) :
    Except String PackageLocks :=
  match List.lookup name locks with
  | some current =>
    Except.error ("Package \"" ++ name ++ "\" is already in the process of action \""
      ++ current ++ "\"")
  | none => Except.ok ((name, action) :: locks)

/-- Modelled from the spec: `unlockPackage(name)` removes the name from the
lock map. -/
def unlockPackage (locks : PackageLocks) (name : String) : PackageLocks :=
  locks.filter fun p => p.1 != name

/-- The collaborator calls of one `runConfigurePackage` run that the tests
observe (the phase functions and the installing-marker writes). -/
inductive PkgCall
  | setMark (name version : String)
  | runUninstallPackagePre (name version : String)
  | runInstallPackage (name version : String)
  | runUninstallPackagePost (name version : String)
  | clearMark (name : String)
deriving DecidableEq, Repr

/-- Environment of the package engine: the version resolution results and
what each sub-phase would return. -/
structure PackagePhases where
  installedVersion : String
  latestVersion : String
  uninstallPreStatus : ResultStatus
  installStatus : ResultStatus
  uninstallPostStatus : ResultStatus
deriving DecidableEq, Repr

/-- Modelled from the spec: the Install algorithm of section 4.6 — no-op when
the target version is already installed; otherwise write the installing
marker, on an upgrade run uninstall-pre of the old version, install the
target, on an upgrade run uninstall-post of the old version, then clear the
marker. Any sub-phase returning SuccessAndReboot aborts the following phases
(the marker stays), any failing sub-phase marks the output failed. -/
def runInstallFlow (phases : PackagePhases) (name target : String) :
    ConfigurePackagePluginOutput × List PkgCall :=
  let installed := phases.installedVersion
  if installed == target then
    (MarkAsSucceeded (AppendInfo emptyOutput
      ("Package " ++ name ++ " " ++ target ++ " is already installed")) false, [])
  else
    let preCalls := PkgCall.setMark name target
      :: (if installed != "" then [PkgCall.runUninstallPackagePre name installed] else [])
    if installed != "" && phases.uninstallPreStatus == ResultStatusSuccessAndReboot then
      (MarkAsSucceeded emptyOutput true, preCalls)
    else if installed != "" && phases.uninstallPreStatus == ResultStatusFailed then
      (MarkAsFailed emptyOutput "uninstall of previous version failed", preCalls)
    else
      let installCalls := preCalls ++ [PkgCall.runInstallPackage name target]
      if phases.installStatus == ResultStatusSuccessAndReboot then
        (MarkAsSucceeded emptyOutput true, installCalls)
      else if phases.installStatus == ResultStatusFailed then
        (MarkAsFailed emptyOutput "install failed", installCalls)
      else
        let postCalls := installCalls
          ++ (if installed != "" then [PkgCall.runUninstallPackagePost name installed] else [])
        if installed != "" && phases.uninstallPostStatus == ResultStatusSuccessAndReboot then
          (MarkAsSucceeded emptyOutput true, postCalls)
        else if installed != "" && phases.uninstallPostStatus == ResultStatusFailed then
          (MarkAsFailed emptyOutput "cleanup of previous version failed", postCalls)
        else
          (MarkAsSucceeded (AppendInfo emptyOutput
            ("Successfully installed " ++ name ++ " " ++ target)) false,
           postCalls ++ [PkgCall.clearMark name])

/-- Modelled from the spec: the Uninstall algorithm of section 4.6 — the
pre-phase may request a reboot (the post-phase is then skipped), the
post-phase cleans up. -/
def runUninstallFlow (phases : PackagePhases) (name version : String) :
    ConfigurePackagePluginOutput × List PkgCall :=
  let preCalls := [PkgCall.runUninstallPackagePre name version]
  if phases.uninstallPreStatus == ResultStatusSuccessAndReboot then
    (MarkAsSucceeded emptyOutput true, preCalls)
  else if phases.uninstallPreStatus == ResultStatusFailed then
    (MarkAsFailed emptyOutput "uninstall failed", preCalls)
  else
    let postCalls := preCalls ++ [PkgCall.runUninstallPackagePost name version]
    if phases.uninstallPostStatus == ResultStatusSuccessAndReboot then
      (MarkAsSucceeded emptyOutput true, postCalls)
    else if phases.uninstallPostStatus == ResultStatusFailed then
      (MarkAsFailed emptyOutput "cleanup failed", postCalls)
    else
      (MarkAsSucceeded (AppendInfo emptyOutput
        ("Successfully uninstalled " ++ name ++ " " ++ version)) false, postCalls)

/-- What one `runConfigurePackage` run produced: the plugin output, the lock
state on return, and the collaborator calls made. -/
structure PkgResult where
  output : ConfigurePackagePluginOutput
  locks : PackageLocks
  calls : List PkgCall
deriving DecidableEq, Repr

/-- Modelled from the spec: `runConfigurePackage` — validate the input, take
the per-package lock (a held lock surfaces as ExitCode 1 with the lock
message in Stderr), run the Install or Uninstall flow, and unlock on every
exit path. -/
def runConfigurePackage (locks : PackageLocks) (phases : PackagePhases)
    (input : ConfigurePackagePluginInput) : PkgResult :=
  match validateInput input with
  | (false, some err) => { output := MarkAsFailed emptyOutput err, locks := locks, calls := [] }
  | _ =>
    match lockPackage locks input.Name input.Action with
    | Except.error err =>
      { output := MarkAsFailed emptyOutput err, locks := locks, calls := [] }
    | Except.ok locked =>
      let flow :=
        if input.Action == "Install" then
          runInstallFlow phases input.Name
            (if input.Version == "" then phases.latestVersion else input.Version)
        else if input.Action == "Uninstall" then
          runUninstallFlow phases input.Name
            (if input.Version == "" then phases.installedVersion else input.Version)
        else
          (MarkAsFailed emptyOutput ("unsupported action " ++ input.Action), [])
      { output := flow.1, locks := unlockPackage locked input.Name, calls := flow.2 }

/-- The installing marker for `name` after the calls of a run: set by
`setMark`, removed by `clearMark`. -/
def markerAfter (calls : List PkgCall) (name : String) : Option String :=
  calls.foldl
    (fun m c =>
      match c with
      | PkgCall.setMark n v => if n == name then some v else m
      | PkgCall.clearMark n => if n == name then none else m
      | _ => m)
    none

/-!
Concrete fixtures used by the witness and counterexample theorems.
-/

def sampleDocInfo : DocumentInfo :=
  { DocumentID := "d1", InstanceID := "i1", MessageID := "m1", CommandID := "c1",
    DocumentName := "AWS-RunShellScript", DocumentStatus := ResultStatusInProgress,
    RuntimeStatus := "", AdditionalInfo := "", DocumentTraceOutput := "" }

def emptyCancelInfo : CancelInfo :=
  { CancelMessageID := "", CancelCommandID := "", DebugInfo := "" }

/-- A send-command document with one plugin that has already executed. -/
def sampleDocState : DocumentState :=
  { DocumentInformation := sampleDocInfo, DocumentType := SendCommand,
    InstancePluginsInformation :=
      [("aws:runScript",
        { Name := "aws:runScript", Configuration := "cfg", HasExecuted := true })],
    CancelInformation := emptyCancelInfo }

/-- An environment whose reply builder reports SuccessAndReboot. -/
def envReboot : SendEnv :=
  { runPlugins := fun _ _ => []
    buildReply := fun _ _ =>
      { AdditionalInfo := "", DocumentStatus := ResultStatusSuccessAndReboot,
        DocumentTraceOutput := "", RuntimeStatus := "" }
    getDocumentInterimState := fun _ _ _ => sampleDocState }

/-- An environment whose reply builder reports Success. -/
def envDone : SendEnv :=
  { runPlugins := fun _ _ => []
    buildReply := fun _ _ =>
      { AdditionalInfo := "", DocumentStatus := ResultStatusSuccess,
        DocumentTraceOutput := "", RuntimeStatus := "" }
    getDocumentInterimState := fun _ _ _ => sampleDocState }

/-- A store holding the sample document's state file in Current. -/
def storeCurrent : DocStore :=
  fun k => if k = ("d1", "i1") then some Folder.Current else none

def sampleMsg : Message :=
  { MessageId := "m1", Topic := "aws.ssm.sendCommand.us-east-1.i-123", Payload := "{}",
    CreatedDate := "2016-01-01", Destination := "i-123" }

/-- A processor environment whose parsers always fail. -/
def envParseFail : ProcEnv :=
  { parseSendCommandMessage := fun _ => Except.error "parse error"
    parseCancelCommandMessage := fun _ => Except.error "parse error"
    acknowledgeMessageFails := fun _ => false }

/-- A processor environment that parses successfully but whose
AcknowledgeMessage call fails. -/
def envAckFail : ProcEnv :=
  { parseSendCommandMessage := fun _ => Except.ok sampleDocState
    parseCancelCommandMessage := fun _ => Except.error "x"
    acknowledgeMessageFails := fun _ => true }

def cancelEnvNotFound : CancelEnv := { poolCancel := fun _ => false }

/-- A message whose topic has neither routing prefix. -/
def msgUnknownTopic : Message :=
  { MessageId := "m1", Topic := "aws.ssm.unknownCommand.x", Payload := "{}",
    CreatedDate := "2016-01-01", Destination := "i-123" }

def emptyStore : DocStore := fun _ => none

def sampleCancelDocState : DocumentState :=
  { DocumentInformation := sampleDocInfo, DocumentType := CancelCommand,
    InstancePluginsInformation := [],
    CancelInformation :=
      { CancelMessageID := "mOld", CancelCommandID := "cOld", DebugInfo := "" } }

/-- Phase results of an upgrade whose uninstall-pre requests a reboot. -/
def phasesUpgradeReboot : PackagePhases :=
  { installedVersion := "0.5.6", latestVersion := "1.0.0",
    uninstallPreStatus := ResultStatusSuccessAndReboot,
    installStatus := ResultStatusSuccess, uninstallPostStatus := ResultStatusSuccess }

def sampleInstallInput : ConfigurePackagePluginInput :=
  { Name := "PVDriver", Version := "1.0.0", Action := "Install", Source := "" }

/-!
Theorems. Each claim of the specification is settled by one theorem below,
stated over the definitions above.
-/

/-- C1: for a send-command document whose final DocumentStatus is
SuccessAndReboot, `processSendCommandMessage` (and likewise
`runCmdsUsingCmdState`) returns right after sending the final reply: the
trace is exactly run-plugins, persist-to-Current, final reply — no move of
the state file and no MDS DeleteMessage — and the document file stays in the
Current folder. -/
theorem c1_reboot_leaves_current (env : SendEnv) (docState : DocumentState)
    (store : DocStore)
    (h : (finalCmdState env docState).DocumentInformation.DocumentStatus =
      ResultStatusSuccessAndReboot)
    (hstore : store ((finalCmdState env docState).DocumentInformation.DocumentID,
      (finalCmdState env docState).DocumentInformation.InstanceID) = some Folder.Current) :
    processSendCommandMessage env docState =
      [Event.runPluginsEv docState.DocumentInformation.MessageID
         docState.InstancePluginsInformation,
       Event.persistDocumentInfo (finalCmdState env docState).DocumentInformation.DocumentID
         (finalCmdState env docState).DocumentInformation.InstanceID Folder.Current,
       Event.sendResponse (finalCmdState env docState).DocumentInformation.MessageID ""]
    ∧ runCmdsUsingCmdState env docState = processSendCommandMessage env docState
    ∧ (processSendCommandMessage env docState).any isMoveEvent = false
    ∧ (processSendCommandMessage env docState).any isDeleteEvent = false
    ∧ applyEvents (processSendCommandMessage env docState) store
        ((finalCmdState env docState).DocumentInformation.DocumentID,
         (finalCmdState env docState).DocumentInformation.InstanceID) =
        some Folder.Current := by
  have htr : processSendCommandMessage env docState =
      [Event.runPluginsEv docState.DocumentInformation.MessageID
         docState.InstancePluginsInformation,
       Event.persistDocumentInfo (finalCmdState env docState).DocumentInformation.DocumentID
         (finalCmdState env docState).DocumentInformation.InstanceID Folder.Current,
       Event.sendResponse (finalCmdState env docState).DocumentInformation.MessageID ""] := by
    simp [processSendCommandMessage, DefaultLocationOfCurrent, h]
  have hrun : runCmdsUsingCmdState env docState = processSendCommandMessage env docState := by
    simp [processSendCommandMessage, runCmdsUsingCmdState]
  refine ⟨htr, hrun, ?_, ?_, ?_⟩
  · rw [htr]; simp [isMoveEvent]
  · rw [htr]; simp [isDeleteEvent]
  · rw [htr]
    simp [applyEvents, applyEvent]

/-- C1 witness: the theorem applied to the concrete reboot environment. -/
theorem c1_witness :
    (processSendCommandMessage envReboot sampleDocState).any isDeleteEvent = false
    ∧ applyEvents (processSendCommandMessage envReboot sampleDocState) storeCurrent
        ("d1", "i1") = some Folder.Current :=
  ⟨(c1_reboot_leaves_current envReboot sampleDocState storeCurrent (by decide)
      (by decide)).2.2.2.1,
   (c1_reboot_leaves_current envReboot sampleDocState storeCurrent (by decide)
      (by decide)).2.2.2.2⟩

/-- C2 counterexample: on the sample document, whose only plugin has
HasExecuted = true, `processSendCommandMessage` still hands that plugin to
the plugin runner, so the set handed over is not the set of plugins with
HasExecuted = false. -/
theorem c2_counterexample :
    (handedToRunner (processSendCommandMessage envDone sampleDocState)).any
      (fun p => p.2.HasExecuted) = true
    ∧ (sampleDocState.InstancePluginsInformation.filter
        (fun p => !(p.2.HasExecuted))) = [] := by
  decide

/-- C2 (amended): `processSendCommandMessage` hands the document's full
`InstancePluginsInformation` — unfiltered — to the plugin runner, while
`loadPluginConfigurations` (not invoked on that path) returns exactly the
configurations of the plugins with HasExecuted = false. -/
theorem c2_amended (env : SendEnv) (docState : DocumentState)
    (plugins : List (String × PluginState)) (entry : String × String) :
    handedToRunner (processSendCommandMessage env docState) =
      docState.InstancePluginsInformation
    ∧ (entry ∈ loadPluginConfigurations plugins ↔
        ∃ ps : PluginState, (entry.1, ps) ∈ plugins ∧ ps.HasExecuted = false
          ∧ entry.2 = ps.Configuration) := by
  constructor
  · by_cases h1 : (finalCmdState env docState).DocumentInformation.DocumentStatus =
      ResultStatusSuccessAndReboot
    · simp [processSendCommandMessage, handedToRunner, h1]
    · by_cases h2 : isUpdatePlugin (finalCmdState env docState)
      · simp [processSendCommandMessage, handedToRunner, h1, h2]
      · simp [processSendCommandMessage, handedToRunner, h1, h2]
  · unfold loadPluginConfigurations
    rw [List.mem_filterMap]
    constructor
    · rintro ⟨p, hp, hf⟩
      by_cases hx : p.2.HasExecuted
      · simp [hx] at hf
      · simp [hx] at hf
        subst hf
        exact ⟨p.2, by simpa using hp, by simpa using hx, rfl⟩
    · rintro ⟨ps, hmem, hexec, hcfg⟩
      refine ⟨(entry.1, ps), hmem, ?_⟩
      simp [hexec, ← hcfg]

/-- C3 counterexample: on a message with the send-command topic prefix whose
parsing fails, `processMessage` sends a Failed document-level response and
never calls FailMessage, contrary to the claim. -/
theorem c3_counterexample :
    processMessage envParseFail sampleMsg =
      [Event.docLevelResponse "m1" ResultStatusFailed "parse error"]
    ∧ (processMessage envParseFail sampleMsg).any isFailMessageEvent = false := by
  decide

/-- C3 (amended): for a valid message, an unknown topic or a cancel-command
parse failure leads to `FailMessage(MessageID, InternalHandlerException)`
with no document state persisted; a send-command parse failure instead sends
a Failed document-level response (no FailMessage) with no state persisted. -/
theorem c3_amended (env : ProcEnv) (msg : Message) (e : String)
    (hv : validate msg = true) :
    (topicBegins msg.Topic SendCommandTopic = false →
      topicBegins msg.Topic CancelCommandTopic = false →
      processMessage env msg =
        [Event.failMessage msg.MessageId FailureType.InternalHandlerException]
      ∧ (processMessage env msg).any isPersistEvent = false)
    ∧ (topicBegins msg.Topic SendCommandTopic = false →
      topicBegins msg.Topic CancelCommandTopic = true →
      env.parseCancelCommandMessage msg = Except.error e →
      processMessage env msg =
        [Event.failMessage msg.MessageId FailureType.InternalHandlerException]
      ∧ (processMessage env msg).any isPersistEvent = false)
    ∧ (topicBegins msg.Topic SendCommandTopic = true →
      env.parseSendCommandMessage msg = Except.error e →
      processMessage env msg =
        [Event.docLevelResponse msg.MessageId ResultStatusFailed e]
      ∧ (processMessage env msg).any isPersistEvent = false
      ∧ (processMessage env msg).any isFailMessageEvent = false) := by
  refine ⟨fun h1 h2 => ?_, fun h1 h2 h3 => ?_, fun h1 h2 => ?_⟩
  · have htr : processMessage env msg =
        [Event.failMessage msg.MessageId FailureType.InternalHandlerException] := by
      simp [processMessage, hv, h1, h2]
    exact ⟨htr, by rw [htr]; simp [isPersistEvent]⟩
  · have htr : processMessage env msg =
        [Event.failMessage msg.MessageId FailureType.InternalHandlerException] := by
      simp [processMessage, hv, h1, h2, h3]
    exact ⟨htr, by rw [htr]; simp [isPersistEvent]⟩
  · have htr : processMessage env msg =
        [Event.docLevelResponse msg.MessageId ResultStatusFailed e] := by
      simp [processMessage, hv, h1, h2]
    exact ⟨htr, by rw [htr]; simp [isPersistEvent],
      by rw [htr]; simp [isFailMessageEvent]⟩

/-- C3 witness: the amended theorem applied to the unknown-topic message. -/
theorem c3_witness :
    processMessage envParseFail msgUnknownTopic =
      [Event.failMessage "m1" FailureType.InternalHandlerException] :=
  ((c3_amended envParseFail msgUnknownTopic "parse error" (by decide)).1
    (by decide) (by decide)).1

/-- C5: `processCancelCommandMessage` on a cancel document whose target job
is not found in the send-command pool sets DocumentStatus Failed with
DebugInfo "Command X couldn't be cancelled"; when the job is found it sets
Success with "Command X cancelled"; in both cases it persists the state in
Current, moves it Current to Completed and deletes the MDS message. -/
theorem c5_cancel_command (env : CancelEnv) (docState : DocumentState) :
    (env.poolCancel docState.CancelInformation.CancelMessageID = false →
      (processCancelCommandMessage env docState).1.DocumentInformation.DocumentStatus =
        ResultStatusFailed
      ∧ (processCancelCommandMessage env docState).1.CancelInformation.DebugInfo =
        "Command " ++ docState.CancelInformation.CancelCommandID ++ " couldn't be cancelled")
    ∧ (env.poolCancel docState.CancelInformation.CancelMessageID = true →
      (processCancelCommandMessage env docState).1.DocumentInformation.DocumentStatus =
        ResultStatusSuccess
      ∧ (processCancelCommandMessage env docState).1.CancelInformation.DebugInfo =
        "Command " ++ docState.CancelInformation.CancelCommandID ++ " cancelled")
    ∧ (processCancelCommandMessage env docState).2 =
      [Event.persistData docState.DocumentInformation.DocumentID
         docState.DocumentInformation.InstanceID Folder.Current,
       Event.moveDocumentState docState.DocumentInformation.DocumentID
         docState.DocumentInformation.InstanceID Folder.Current Folder.Completed,
       Event.deleteMessage docState.DocumentInformation.MessageID] := by
  by_cases hc : env.poolCancel docState.CancelInformation.CancelMessageID
  · refine ⟨fun hfalse => by simp [hc] at hfalse, fun _ => ?_, ?_⟩
    · constructor
      · simp [processCancelCommandMessage, hc]
      · simp [processCancelCommandMessage, hc]
    · simp [processCancelCommandMessage, hc, DefaultLocationOfCurrent,
        DefaultLocationOfCompleted]
  · have hc' : env.poolCancel docState.CancelInformation.CancelMessageID = false := by
      simpa using hc
    refine ⟨fun _ => ?_, fun htrue => by simp [hc'] at htrue, ?_⟩
    · constructor
      · simp [processCancelCommandMessage, hc']
      · simp [processCancelCommandMessage, hc']
    · simp [processCancelCommandMessage, hc', DefaultLocationOfCurrent,
        DefaultLocationOfCompleted]

/-- C6: a send-command document that completes without requesting a reboot is
moved Current to Completed, and DeleteMessage is called exactly when the
document holds no update-self plugin. -/
theorem c6_completion_move_delete (env : SendEnv) (docState : DocumentState)
    (h : (finalCmdState env docState).DocumentInformation.DocumentStatus ≠
      ResultStatusSuccessAndReboot) :
    processSendCommandMessage env docState =
      [Event.runPluginsEv docState.DocumentInformation.MessageID
         docState.InstancePluginsInformation,
       Event.persistDocumentInfo (finalCmdState env docState).DocumentInformation.DocumentID
         (finalCmdState env docState).DocumentInformation.InstanceID Folder.Current,
       Event.sendResponse (finalCmdState env docState).DocumentInformation.MessageID "",
       Event.moveDocumentState (finalCmdState env docState).DocumentInformation.DocumentID
         (finalCmdState env docState).DocumentInformation.InstanceID
         Folder.Current Folder.Completed]
      ++ (if isUpdatePlugin (finalCmdState env docState) then []
          else [Event.deleteMessage
            (finalCmdState env docState).DocumentInformation.MessageID])
    ∧ Event.moveDocumentState (finalCmdState env docState).DocumentInformation.DocumentID
        (finalCmdState env docState).DocumentInformation.InstanceID
        Folder.Current Folder.Completed ∈ processSendCommandMessage env docState
    ∧ ((processSendCommandMessage env docState).any isDeleteEvent = true ↔
        isUpdatePlugin (finalCmdState env docState) = false) := by
  have htr : processSendCommandMessage env docState =
      [Event.runPluginsEv docState.DocumentInformation.MessageID
         docState.InstancePluginsInformation,
       Event.persistDocumentInfo (finalCmdState env docState).DocumentInformation.DocumentID
         (finalCmdState env docState).DocumentInformation.InstanceID Folder.Current,
       Event.sendResponse (finalCmdState env docState).DocumentInformation.MessageID "",
       Event.moveDocumentState (finalCmdState env docState).DocumentInformation.DocumentID
         (finalCmdState env docState).DocumentInformation.InstanceID
         Folder.Current Folder.Completed]
      ++ (if isUpdatePlugin (finalCmdState env docState) then []
          else [Event.deleteMessage
            (finalCmdState env docState).DocumentInformation.MessageID]) := by
    simp [processSendCommandMessage, DefaultLocationOfCurrent,
      DefaultLocationOfCompleted, h]
  refine ⟨htr, ?_, ?_⟩
  · rw [htr]; simp
  · rw [htr]
    by_cases hU : isUpdatePlugin (finalCmdState env docState)
    · simp [isDeleteEvent, hU]
    · simp [isDeleteEvent, hU]

/-- C6 witness: the theorem applied to the completing environment; the
sample document has no update-self plugin, so DeleteMessage is called. -/
theorem c6_witness :
    (processSendCommandMessage envDone sampleDocState).any isDeleteEvent = true :=
  ((c6_completion_move_delete envDone sampleDocState (by decide)).2.2).mpr (by decide)

/-- C9: when AcknowledgeMessage fails after the document state was persisted
to Pending, `processMessage` returns at once: no InProgress document-level
response, no move, no pool submission, and the document state stays in the
Pending folder. -/
theorem c9_ack_error_returns (env : ProcEnv) (msg : Message)
    (docState : DocumentState) (store : DocStore)
    (hv : validate msg = true)
    (ht : topicBegins msg.Topic SendCommandTopic = true)
    (hp : env.parseSendCommandMessage msg = Except.ok docState)
    (ha : env.acknowledgeMessageFails msg.MessageId = true) :
    processMessage env msg =
      [Event.persistData docState.DocumentInformation.DocumentID
         docState.DocumentInformation.InstanceID Folder.Pending,
       Event.acknowledgeMessage msg.MessageId]
    ∧ (processMessage env msg).any isInProgressResponse = false
    ∧ (processMessage env msg).any isMoveEvent = false
    ∧ (processMessage env msg).any isSubmitEvent = false
    ∧ applyEvents (processMessage env msg) store
        (docState.DocumentInformation.DocumentID,
         docState.DocumentInformation.InstanceID) = some Folder.Pending := by
  have htr : processMessage env msg =
      [Event.persistData docState.DocumentInformation.DocumentID
         docState.DocumentInformation.InstanceID Folder.Pending,
       Event.acknowledgeMessage msg.MessageId] := by
    simp [processMessage, processMessageDispatch, hv, ht, hp, ha,
      DefaultLocationOfPending]
  refine ⟨htr, ?_, ?_, ?_, ?_⟩
  · rw [htr]; simp [isInProgressResponse]
  · rw [htr]; simp [isMoveEvent]
  · rw [htr]; simp [isSubmitEvent]
  · rw [htr]; simp [applyEvents, applyEvent]

/-- After `unlockPackage locks name`, the name is no longer in the lock map. -/
theorem lookup_unlockPackage (locks : PackageLocks) (name : String) :
    List.lookup name (unlockPackage locks name) = none := by
  induction locks with
  | nil => rfl
  | cons p rest ih =>
    unfold unlockPackage at ih ⊢
    rw [List.filter_cons]
    by_cases h : p.1 = name
    · have hb : ¬((p.1 != name) = true) := by simp [h]
      rw [if_neg hb]
      exact ih
    · have hb : (p.1 != name) = true := by simp [h]
      rw [if_pos hb]
      have hn2 : (name == p.1) = false := by
        rw [beq_eq_false_iff_ne]
        exact fun he => h he.symm
      simp [List.lookup, hn2, ih]

/-- C4: while a package name is locked (for any action), `lockPackage` on the
same name fails with the message
`Package "<Name>" is already in the process of action "<Action>"` naming the
action in progress, a second Execute of that package returns ExitCode 1 with
that message in Stderr, and after `unlockPackage` a subsequent `lockPackage`
on the name succeeds for any action. -/
theorem c4_package_lock_exclusion (locks : PackageLocks) (phases : PackagePhases)
    (name held act : String)
    (hheld : List.lookup name locks = some held)
    (hn : validPackageName name = true) :
    lockPackage locks name act =
      Except.error ("Package \"" ++ name ++ "\" is already in the process of action \""
        ++ held ++ "\"")
    ∧ (runConfigurePackage locks phases
        { Name := name, Version := "", Action := "Install", Source := "" }).output.ExitCode = 1
    ∧ (runConfigurePackage locks phases
        { Name := name, Version := "", Action := "Install", Source := "" }).output.Stderr =
      "Package \"" ++ name ++ "\" is already in the process of action \"" ++ held ++ "\""
    ∧ lockPackage (unlockPackage locks name) name act =
      Except.ok ((name, act) :: unlockPackage locks name) := by
  have hname : name ≠ "" := by
    intro h
    rw [h] at hn
    exact absurd hn (by decide)
  have hlock : lockPackage locks name act =
      Except.error ("Package \"" ++ name ++ "\" is already in the process of action \""
        ++ held ++ "\"") := by
    unfold lockPackage
    rw [hheld]
  have hvalid : validateInput
      { Name := name, Version := "", Action := "Install", Source := "" } = (true, none) := by
    simp [validateInput, hname, hn]
  have hrun : runConfigurePackage locks phases
      { Name := name, Version := "", Action := "Install", Source := "" } =
      { output := MarkAsFailed emptyOutput
          ("Package \"" ++ name ++ "\" is already in the process of action \""
            ++ held ++ "\"")
        locks := locks, calls := [] } := by
    unfold runConfigurePackage
    rw [hvalid]
    simp only [lockPackage, hheld]
  refine ⟨hlock, ?_, ?_, ?_⟩
  · rw [hrun]
    rfl
  · rw [hrun]
    simp [MarkAsFailed, emptyOutput]
  · unfold lockPackage
    rw [lookup_unlockPackage]

/-- C4 witness: the theorem applied to a lock map holding PVDriver for
Install, with Uninstall as the second action. -/
theorem c4_witness :
    (runConfigurePackage [("PVDriver", "Install")] phasesUpgradeReboot
      { Name := "PVDriver", Version := "", Action := "Install", Source := "" }).output.ExitCode = 1
    ∧ lockPackage (unlockPackage [("PVDriver", "Install")] "PVDriver") "PVDriver" "Uninstall" =
      Except.ok [("PVDriver", "Uninstall")] :=
  ⟨(c4_package_lock_exclusion [("PVDriver", "Install")] phasesUpgradeReboot
      "PVDriver" "Install" "Uninstall" rfl (by decide)).2.1,
   (c4_package_lock_exclusion [("PVDriver", "Install")] phasesUpgradeReboot
      "PVDriver" "Install" "Uninstall" rfl (by decide)).2.2.2⟩

/-- C7: validateInput rejects the empty name with "empty name field", rejects
each listed ill-formed name with "invalid name", and accepts every name of
the allowed shape (with a well-formed version and empty source). -/
theorem c7_validate_package_name (s : String)
    (hs : validPackageName s = true) :
    validateInput { Name := "", Version := "9000.0.0", Action := "Install", Source := "" } =
      (false, some "empty name field")
    ∧ ([".", ".abc", "-", "-abc", "abc.", "abc-", "0abc", "1234", "../foo",
        "abc..def"].all
        (fun n => validateInput
          { Name := n, Version := "9000.0.0", Action := "Install", Source := "" } ==
          (false, some "invalid name"))) = true
    ∧ validateInput { Name := s, Version := "9000.0.0", Action := "Install", Source := "" } =
      (true, none) := by
  have hname : s ≠ "" := by
    intro h
    rw [h] at hs
    exact absurd hs (by decide)
  have hver : validPackageVersion "9000.0.0" = true := by decide
  refine ⟨by decide, by decide, ?_⟩
  simp [validateInput, hname, hs, hver]

/-- C7 witness: the theorem applied to the valid name "a0". -/
theorem c7_witness :
    validateInput { Name := "a0", Version := "9000.0.0", Action := "Install", Source := "" } =
      (true, none) :=
  (c7_validate_package_name "a0" (by decide)).2.2

/-- C8: on an upgrade whose uninstall-pre phase of the old version returns
SuccessAndReboot, the engine calls setMark and runUninstallPackagePre only —
no runInstallPackage, no runUninstallPackagePost, no clearMark — leaves the
installing marker set, and Execute returns ExitCode 0 with Status
SuccessAndReboot. -/
theorem c8_upgrade_uninstall_reboot (locks : PackageLocks) (phases : PackagePhases)
    (name newV : String)
    (hfree : List.lookup name locks = none)
    (hn : validPackageName name = true)
    (hv : validPackageVersion newV = true)
    (hold : phases.installedVersion ≠ "")
    (hne : phases.installedVersion ≠ newV)
    (hpre : phases.uninstallPreStatus = ResultStatusSuccessAndReboot) :
    (runConfigurePackage locks phases
      { Name := name, Version := newV, Action := "Install", Source := "" }).calls =
      [PkgCall.setMark name newV,
       PkgCall.runUninstallPackagePre name phases.installedVersion]
    ∧ (runConfigurePackage locks phases
        { Name := name, Version := newV, Action := "Install", Source := "" }).output.ExitCode = 0
    ∧ (runConfigurePackage locks phases
        { Name := name, Version := newV, Action := "Install", Source := "" }).output.Status =
      ResultStatusSuccessAndReboot
    ∧ markerAfter (runConfigurePackage locks phases
        { Name := name, Version := newV, Action := "Install", Source := "" }).calls name =
      some newV := by
  have hname : name ≠ "" := by
    intro h
    rw [h] at hn
    exact absurd hn (by decide)
  have hnewV : newV ≠ "" := by
    intro h
    rw [h] at hv
    exact absurd hv (by decide)
  have hvalid : validateInput
      { Name := name, Version := newV, Action := "Install", Source := "" } = (true, none) := by
    simp [validateInput, hname, hn, hv]
  have hflow : runInstallFlow phases name newV =
      (MarkAsSucceeded emptyOutput true,
       [PkgCall.setMark name newV,
        PkgCall.runUninstallPackagePre name phases.installedVersion]) := by
    unfold runInstallFlow
    have h1 : (phases.installedVersion == newV) = false := by
      simp [beq_iff_eq, hne]
    have h2 : (phases.installedVersion != "") = true := by
      simp [hold]
    rw [if_neg (by simp [h1])]
    simp [h2, hpre, ResultStatusSuccessAndReboot]
  have hrun : runConfigurePackage locks phases
      { Name := name, Version := newV, Action := "Install", Source := "" } =
      { output := MarkAsSucceeded emptyOutput true
        locks := unlockPackage ((name, "Install") :: locks) name
        calls := [PkgCall.setMark name newV,
          PkgCall.runUninstallPackagePre name phases.installedVersion] } := by
    unfold runConfigurePackage
    rw [hvalid]
    simp only [lockPackage, hfree]
    have hverif : (newV == "") = false := by simp [beq_iff_eq, hnewV]
    simp [hverif, hflow]
  refine ⟨?_, ?_, ?_, ?_⟩
  · rw [hrun]
  · rw [hrun]
    rfl
  · rw [hrun]
    simp [MarkAsSucceeded]
  · rw [hrun]
    simp [markerAfter]

/-- C8 witness: the theorem applied to the PVDriver upgrade from 0.5.6 to
1.0.0 whose uninstall-pre requests a reboot. -/
theorem c8_witness :
    (runConfigurePackage [] phasesUpgradeReboot sampleInstallInput).calls =
      [PkgCall.setMark "PVDriver" "1.0.0",
       PkgCall.runUninstallPackagePre "PVDriver" "0.5.6"]
    ∧ (runConfigurePackage [] phasesUpgradeReboot sampleInstallInput).output.Status =
      ResultStatusSuccessAndReboot :=
  ⟨(c8_upgrade_uninstall_reboot [] phasesUpgradeReboot "PVDriver" "1.0.0" rfl
      (by decide) (by decide) (by decide) (by decide) rfl).1,
   (c8_upgrade_uninstall_reboot [] phasesUpgradeReboot "PVDriver" "1.0.0" rfl
      (by decide) (by decide) (by decide) (by decide) rfl).2.2.1⟩

/-- C10: validateInput does not read the Action field: any input with a
well-formed name, a well-formed version and an empty source is accepted,
whatever its Action. -/
theorem c10_action_unchecked (name ver act : String)
    (hn : validPackageName name = true) (hv : validPackageVersion ver = true) :
    validateInput { Name := name, Version := ver, Action := act, Source := "" } =
      (true, none) := by
  have hname : name ≠ "" := by
    intro h
    rw [h] at hn
    exact absurd hn (by decide)
  simp [validateInput, hname, hn, hv]

/-- C10 witness: the theorem applied to Action "InvalidAction". -/
theorem c10_witness :
    validateInput
      { Name := "PVDriver", Version := "1.0.0", Action := "InvalidAction", Source := "" } =
      (true, none) :=
  c10_action_unchecked "PVDriver" "1.0.0" "InvalidAction" (by decide) (by decide)

/-- C9 witness: the theorem applied to the failing-acknowledge environment. -/
theorem c9_witness :
    (processMessage envAckFail sampleMsg).any isSubmitEvent = false
    ∧ applyEvents (processMessage envAckFail sampleMsg) emptyStore ("d1", "i1") =
      some Folder.Pending :=
  ⟨(c9_ack_error_returns envAckFail sampleMsg sampleDocState emptyStore (by decide)
      (by decide) rfl (by decide)).2.2.2.1,
   (c9_ack_error_returns envAckFail sampleMsg sampleDocState emptyStore (by decide)
      (by decide) rfl (by decide)).2.2.2.2⟩

end Ssm
